import Mathlib

/-!
Verification development for the `additional_pre_print_checks` Moonraker
plugin (file `src/additional_pre_print_checks.py`).

The plugin state, configuration, external collaborators and the four
operations `_init_spool`, `check_print_weight`,
`check_filament_name_compliance`, `check_mmu_tools` and `run_checks` are
shallowly embedded below.  Python floats are modelled as rationals,
fallible external calls as `Option`-valued environment fields, and the
exceptions that can escape the MMU code path as an `Except PyError`
result.  Console output (everything sent through `_log_to_console`) is
returned as a list of (message, severity) pairs; plain `logging.*` calls
that do not reach the console are not tracked.
-/

/-- The `filament` sub-record of a Spoolman spool record: a Python dict
whose `name` and `material` keys may be absent. -/
structure SpoolFilament where
  name : Option String
  material : Option String
deriving DecidableEq

/-- A Spoolman spool record as used by the plugin: `remaining_weight` and
the nested `filament` dict may be absent. -/
structure SpoolInfo where
  remaining_weight : Option ℚ
  filament : Option SpoolFilament
deriving DecidableEq

/-- A metadata field that Python may store either as one string or as a
list of strings (`filament_type`, `filament_name`). -/
inductive StrOrList where
  | str (s : String)
  | list (l : List String)
deriving DecidableEq

/-- Gcode-file metadata as read by the plugin.  Entries of
`filament_weights` may be `None` (the code tests `required_weight is not
None`), hence `List (Option ℚ)`. -/
structure JobMetadata where
  filament_weight_total : Option ℚ
  filament_weights : Option (List (Option ℚ))
  filament_type : Option StrOrList
  filament_name : Option StrOrList
deriving DecidableEq

/-- The mutable fields of `AdditionalPrePrintChecks` that the check
session reads and writes: the spool cache (lines 52-54). -/
structure PluginState where
  cached_spool_info : Option SpoolInfo
  cached_spool_id : Option Nat
deriving DecidableEq

/-- The configuration values loaded in `__init__` (lines 42-50). -/
structure CheckConfig where
  weight_margin : ℚ
  enable_weight_check : Bool
  enable_material_check : Bool
  enable_filament_name_check : Bool
  material_mismatch_severity : String
  filament_name_mismatch_severity : String
deriving DecidableEq

/-- The Python exceptions that can escape the embedded code paths. -/
inductive PyError where
  | typeError
  | indexError
  | attributeError
  | runtimeError
deriving DecidableEq

/-- The external collaborators of one check session: Spoolman presence,
the MMU backend, the database active-spool key, the inventory service
(`_fetch_spool_info`, all failures already collapsed to `none` by lines
122-139), metadata storage, Klipper state, and the MMU backend
configuration (`ttg_map`, `gate_spool_id`, `endless_spool_groups`; `none`
models the Python default `False` of line 328-330). -/
structure Env where
  spoolman : Bool
  mmu_server : Bool
  mmu_backend_enabled : Bool
  active_spool_id : Option Nat
  spools : Nat → Option SpoolInfo
  metadata : String → Option JobMetadata
  current_filename : Option String
  mmu_ttg_map : Option (List Nat)
  mmu_gate_spool_id : Option (List (Option Nat))
  mmu_endless_spool_groups : Option (List Nat)
  mmu_refresh_raises : Bool

/-- A console message as sent by `_log_to_console`: text and severity. -/
abbrev ConsoleMsg := String × String

/-- The floor of a rational as an integer, computed from its numerator
and denominator with floor division. -/
def ratFloor (q : ℚ) : Int :=
  q.num.fdiv q.den

/-- Python `f"{x:.1f}"` on a value modelled as a rational: the value
rounded to one decimal place and printed with exactly one digit after the
point. -/
def fmt1 (q : ℚ) : String :=
  let n : Int := ratFloor (q * 10 + 1 / 2)
  if n < 0 then
    let m := -n
    let w := m / 10
    let fr := m % 10
    s!"-{w}.{fr}"
  else
    let w := n / 10
    let fr := n % 10
    s!"{w}.{fr}"

/-- `spool.get("filament", \x7b\x7d).get(key, d)` for the `name` key. -/
def filament_name_getD (info : SpoolInfo) (d : String) : String :=
  match info.filament with
  | none => d
  | some f => f.name.getD d

/-- `spool.get("filament", \x7b\x7d).get("material", "")`. -/
def filament_material_get (info : SpoolInfo) : String :=
  match info.filament with
  | none => ""
  | some f => f.material.getD ""

/-- Python truthiness test `not x` for an optional str-or-list metadata
value (`None`, `""` and `[]` are falsy). -/
def strOrListFalsy : Option StrOrList → Bool
  | none => true
  | some (.str s) => s == ""
  | some (.list l) => l.isEmpty

/-- `metadata_filament_names[0]` when a list (guarded non-empty by the
falsiness test at line 264), the string itself otherwise (lines 269-272). -/
def strOrListHead : StrOrList → String
  | .str s => s
  | .list l => l.headD ""

/-- The `[x] if isinstance(x, str) else x` normalisation applied to
`filament_type` and `filament_name` at lines 318-320, with the
`metadata.get(key, [])` default. -/
def strOrListToList : Option StrOrList → List String
  | none => []
  | some (.str s) => [s]
  | some (.list l) => l

/-- `_clear_spool_cache` (lines 117-120). -/
def clear_spool_cache (_st : PluginState) : PluginState :=
  { cached_spool_info := none, cached_spool_id := none }

/-- `_init_spool` (lines 82-115): read the active spool id, serve the
cached record if it is for the same id, otherwise fetch and cache; every
failure path returns `none`. -/
def init_spool (env : Env) (st : PluginState) : Option Nat × PluginState :=
  if !env.spoolman then (none, st)
  else
    match env.active_spool_id with
    | none => (none, st)
    | some spool_id =>
      if st.cached_spool_id == some spool_id && st.cached_spool_info.isSome then
        (some spool_id, st)
      else
        match env.spools spool_id with
        | none => (none, { st with cached_spool_info := none, cached_spool_id := none })
        | some info =>
          (some spool_id, { cached_spool_info := some info, cached_spool_id := some spool_id })

/-- `check_print_weight` (lines 177-234): single-spool weight check.
The result is `.ok` of the returned bool; the unreachable branch where
`cached_spool_info` is `None` after a successful `_init_spool` is the
Python `AttributeError` of `None.get`. -/
def check_print_weight (cfg : CheckConfig) (env : Env) (st : PluginState)
    (filename : String) : Except PyError Bool × PluginState × List ConsoleMsg :=
  if !env.spoolman || !cfg.enable_weight_check then (.ok true, st, [])
  else
    match init_spool env st with
    | (none, st1) =>
      (.ok true, st1,
        [("No active spool set or cannot fetch spool info, skipping weight check", "info")])
    | (some spool_id, st1) =>
      match env.metadata filename with
      | none => (.ok true, st1, [(s!"No metadata available for {filename}", "error")])
      | some md =>
        match md.filament_weight_total with
        | none => (.ok true, st1, [("No weight data in file metadata, skipping check", "info")])
        | some required_weight =>
          match st1.cached_spool_info with
          | none => (.error .attributeError, st1, [])
          | some info =>
            match info.remaining_weight with
            | none =>
              (.ok true, st1, [("Spool has no remaining weight data, skipping check", "info")])
            | some remaining_weight =>
              let required_with_margin := required_weight + cfg.weight_margin
              let filament_name := filament_name_getD info "Unknown"
              if required_with_margin ≤ remaining_weight then
                -- PASSED message goes to logging.info only, not to the console
                (.ok true, st1, [])
              else
                let deficit := required_with_margin - remaining_weight
                let rs := fmt1 remaining_weight
                let qs := fmt1 required_weight
                let ms := fmt1 cfg.weight_margin
                let ds := fmt1 deficit
                let pre :=
                  s!"Weight Check FAILED: Spool {spool_id} ({filament_name}) has only {rs}g, need {qs}g (+{ms}g margin). SHORT BY "
                (.ok false, st1, [(pre ++ ds ++ "g!", "error")])

/-- `check_filament_name_compliance` (lines 236-293): single-spool
filament-name check.  With severity `ignore` (or Spoolman absent or the
check disabled) the function returns before any fetch (line 246). -/
def check_filament_name_compliance (cfg : CheckConfig) (env : Env) (st : PluginState)
    (filename : String) : Except PyError Bool × PluginState × List ConsoleMsg :=
  if !env.spoolman || !cfg.enable_filament_name_check ||
      cfg.filament_name_mismatch_severity == "ignore" then
    (.ok true, st, [])
  else
    match init_spool env st with
    | (none, st1) =>
      (.ok true, st1,
        [("No active spool set or cannot fetch spool info, skipping filament name check", "info")])
    | (some spool_id, st1) =>
      match env.metadata filename with
      | none => (.ok true, st1, [(s!"No metadata available for {filename}", "error")])
      | some md =>
        if strOrListFalsy md.filament_name then
          (.ok true, st1, [("No filament name data in file metadata, skipping check", "info")])
        else
          match md.filament_name with
          | none => (.ok true, st1, [("No filament name data in file metadata, skipping check", "info")])
          | some names =>
            let metadata_filament_name := (strOrListHead names).trim
            match st1.cached_spool_info with
            | none => (.error .attributeError, st1, [])
            | some info =>
              let spool_filament_name := (filament_name_getD info "").trim
              if spool_filament_name == "" then
                (.ok true, st1, [("Spool has no filament name data, skipping check", "info")])
              else
                if spool_filament_name.toLower == metadata_filament_name.toLower then
                  (.ok true, st1, [])
                else
                  let msg :=
                    s!"Filament Name Check FAILED: Spool {spool_id} has name '{spool_filament_name}' but gcode expects '{metadata_filament_name}'"
                  (.ok (cfg.filament_name_mismatch_severity != "error"), st1,
                    [(msg, cfg.filament_name_mismatch_severity)])

/-- The endless-spool group of a gate (line 346):
`[g for g, sg in enumerate(endless_spool_groups) if sg == endless_spool_groups[gate_number]]`.
An empty list iterates zero times and never evaluates the subscript; a
non-empty list with `gate_number` out of range raises `IndexError` on the
first iteration. -/
def gate_group (esg : List Nat) (gate_number : Nat) : Except PyError (List Nat) :=
  if esg.isEmpty then .ok []
  else if gate_number < esg.length then
    .ok ((List.range esg.length).filter fun g => esg.getD g 0 == esg.getD gate_number 0)
  else .error .indexError

/-- One iteration of the grouped-weight sum of lines 368-377: skip a
gate with no assigned spool, skip a failed fetch, skip a record without
`remaining_weight`, otherwise add the remaining weight. -/
def group_sum_step (env : Env) (gs : List (Option Nat)) (acc : ℚ) (g : Nat) : ℚ :=
  match (if g < gs.length then gs.getD g none else none) with
  | none => acc
  | some sid =>
    match env.spools sid with
    | none => acc
    | some info =>
      match info.remaining_weight with
      | none => acc
      | some rw => acc + rw

/-- The grouped-weight sum of lines 367-377, starting from `0.0`. -/
def group_sum (env : Env) (gs : List (Option Nat)) (group : List Nat) : ℚ :=
  group.foldl (group_sum_step env gs) 0

/-- One iteration of the grouped-material collection of lines 406-415:
skip a gate with no assigned spool, skip a failed fetch, and add the
lower-cased stripped material when it is non-empty and new. -/
def group_materials_step (env : Env) (gs : List (Option Nat)) (acc : List String) (g : Nat) :
    List String :=
  match (if g < gs.length then gs.getD g none else none) with
  | none => acc
  | some sid =>
    match env.spools sid with
    | none => acc
    | some info =>
      let sm := (filament_material_get info).trim
      if sm == "" then acc
      else if acc.contains sm.toLower then acc else acc ++ [sm.toLower]

/-- The grouped-material collection of lines 405-415: the lower-cased
non-empty stripped material strings of the fetchable grouped spools, as a
duplicate-free list (the Python `set`, in insertion order). -/
def group_materials (env : Env) (gs : List (Option Nat)) (group : List Nat) : List String :=
  group.foldl (group_materials_step env gs) []

/-- `self.cached_spool_info.get("filament", \x7b\x7d).get("name", d)` at
lines 385-386 and 440: read through the cached record.  Every caller has
just established that the cache holds a record, so the `none` branch is
dead code (in Python it would be an `AttributeError`). -/
def filament_name_getD_state (st : PluginState) (d : String) : String :=
  match st.cached_spool_info with
  | none => d
  | some info => filament_name_getD info d

/-- The weight comparison and messages of lines 382-398, shared by the
grouped and ungrouped branch of the MMU weight section. -/
def mmu_weight_compare (cfg : CheckConfig) (st : PluginState) (spool_id tool_index : Nat)
    (required_weight remaining_weight : ℚ) :
    Except PyError Bool × PluginState × List ConsoleMsg :=
  let required_with_margin := required_weight + cfg.weight_margin
  let filament_name := filament_name_getD_state st "Unknown"
  if required_with_margin ≤ remaining_weight then
    -- PASSED message goes to logging.info only, not to the console
    (.ok true, st, [])
  else
    let rs := fmt1 remaining_weight
    let qs := fmt1 required_weight
    let ms := fmt1 cfg.weight_margin
    let ds := fmt1 (required_with_margin - remaining_weight)
    let pre :=
      s!"Tool {tool_index} Weight Check FAILED: Spool {spool_id} ({filament_name}) has only {rs}g, need {qs}g (+{ms}g margin). SHORT BY "
    (.ok false, st, [(pre ++ ds ++ "g!", "error")])

/-- The MMU weight section (lines 363-399).  With more than one gate in
the group, the grouped weights are summed and written back into the
cached record (line 378); otherwise the cached record's own
`remaining_weight` is read, and if it is absent the Python comparison
`None >= float` of line 383 raises `TypeError`. -/
def mmu_weight_check (cfg : CheckConfig) (env : Env) (st : PluginState)
    (spool_id tool_index : Nat) (group : List Nat) (gs : List (Option Nat))
    (required_weight? : Option ℚ) :
    Except PyError Bool × PluginState × List ConsoleMsg :=
  if cfg.enable_weight_check then
    match required_weight? with
    | none => (.ok true, st, [])
    | some required_weight =>
      if 1 < group.length then
        let remaining_weight := group_sum env gs group
        match st.cached_spool_info with
        | none => (.error .typeError, st, [])
        | some info =>
          let st1 := { st with cached_spool_info := some { info with remaining_weight := some remaining_weight } }
          mmu_weight_compare cfg st1 spool_id tool_index required_weight remaining_weight
      else
        match st.cached_spool_info with
        | none => (.error .attributeError, st, [])
        | some info =>
          match info.remaining_weight with
          | none => (.error .typeError, st, [])
          | some remaining_weight =>
            mmu_weight_compare cfg st spool_id tool_index required_weight remaining_weight
  else (.ok true, st, [])

/-- The MMU material section (lines 400-435).  With more than one gate in
the group the material is resolved by consensus over the grouped spools;
exactly one distinct lower-cased material resolves, anything else is
ambiguous (`None`).  A falsy resolved material skips the rule with an
info notice.  On a mismatch the message is sent at the configured
severity, and the returned flag is the comparison result itself: the
`if severity == "error"` assignment of lines 434-435 re-assigns a value
that is already `False`. -/
def mmu_material_check (cfg : CheckConfig) (env : Env) (st : PluginState)
    (spool_id tool_index : Nat) (group : List Nat) (gs : List (Option Nat))
    (filament_types : List String) :
    Except PyError Bool × PluginState × List ConsoleMsg :=
  if cfg.enable_material_check && tool_index < filament_types.length then
    let metadata_material := (filament_types.getD tool_index "").trim
    let resolved : Except PyError (Option String) :=
      if 1 < group.length then
        let spool_materials := group_materials env gs group
        if spool_materials.length == 1 then .ok (some (spool_materials.headD ""))
        else .ok none
      else
        match st.cached_spool_info with
        | none => .error .attributeError
        | some info => .ok (some ((filament_material_get info).trim))
    match resolved with
    | .error e => (.error e, st, [])
    | .ok spool_material? =>
      let spool_material := spool_material?.getD ""
      if spool_material == "" then
        (.ok true, st,
          [(s!"Tool {tool_index} Spool {spool_id} has no material data, skipping material check", "info")])
      else
        if spool_material.toLower == metadata_material.toLower then
          (.ok true, st, [])
        else
          let msg :=
            s!"Tool {tool_index} Material Check FAILED: Spool {spool_id} has material '{spool_material}' but gcode expects '{metadata_material}'"
          (.ok false, st, [(msg, cfg.material_mismatch_severity)])
  else (.ok true, st, [])

/-- The MMU filament-name section (lines 436-454).  Reads the cached
record; a blank spool name skips the rule with an info notice; on a
mismatch the message is sent at the configured severity and the returned
flag is the comparison result (the `if severity == "error"` assignment of
lines 453-454 re-assigns a value that is already `False`). -/
def mmu_name_check (cfg : CheckConfig) (st : PluginState) (spool_id tool_index : Nat)
    (filament_names : List String) :
    Except PyError Bool × PluginState × List ConsoleMsg :=
  if cfg.enable_filament_name_check && tool_index < filament_names.length then
    let metadata_filament_name := (filament_names.getD tool_index "").trim
    match st.cached_spool_info with
    | none => (.error .attributeError, st, [])
    | some info =>
      let spool_filament_name := (filament_name_getD info "").trim
      if spool_filament_name == "" then
        (.ok true, st,
          [(s!"Tool {tool_index} Spool {spool_id} has no filament name data, skipping name check", "info")])
      else
        if spool_filament_name.toLower == metadata_filament_name.toLower then
          (.ok true, st, [])
        else
          let msg :=
            s!"Tool {tool_index} Filament Name Check FAILED: Spool {spool_id} has name '{spool_filament_name}' but gcode expects '{metadata_filament_name}'"
          (.ok false, st, [(msg, cfg.filament_name_mismatch_severity)])
  else (.ok true, st, [])

/-- One iteration of the tool loop of `check_mmu_tools` (lines 339-456):
resolve the gate, its endless-spool group and its spool, fetch and cache
the record, then run the weight, material and name sections.  The bool is
this tool's contribution to `all_ok`: `true` for the skip paths that do
not touch `all_ok`, `false` for a failed fetch, and the conjunction of
the three section flags otherwise. -/
def mmu_check_tool (cfg : CheckConfig) (env : Env) (st : PluginState)
    (ttg : Option (List Nat)) (gsi : Option (List (Option Nat))) (esg : Option (List Nat))
    (filament_weights : List (Option ℚ)) (filament_types filament_names : List String)
    (tool_index : Nat) : Except PyError Bool × PluginState × List ConsoleMsg :=
  match ttg with
  | none => (.error .typeError, st, [])  -- len(False) at line 341
  | some ttg_map =>
    if ttg_map.length ≤ tool_index then
      -- logging.error only, then continue: all_ok is untouched (lines 341-343)
      (.ok true, st, [])
    else
      let gate_number := ttg_map.getD tool_index 0
      match esg with
      | none => (.error .typeError, st, [])  -- enumerate(False) at line 346
      | some esg_list =>
        match gate_group esg_list gate_number with
        | .error e => (.error e, st, [])
        | .ok group =>
          match gsi with
          | none => (.error .typeError, st, [])  -- len(False) at line 349
          | some gs =>
            match (if gate_number < gs.length then gs.getD gate_number none else none) with
            | none =>
              (.ok true, st,
                [(s!"No spool assigned to gate {gate_number} for tool {tool_index}, skipping checks", "warning")])
            | some spool_id =>
              match env.spools spool_id with
              | none =>
                -- cached_spool_info was assigned the None fetch result (line 355)
                (.ok false, { st with cached_spool_info := none },
                  [(s!"Cannot fetch spool {spool_id} info for tool {tool_index}, skipping checks", "error")])
              | some info =>
                let st1 := { st with cached_spool_info := some info }
                if tool_index < filament_weights.length then
                  let required_weight? := filament_weights.getD tool_index none
                  match mmu_weight_check cfg env st1 spool_id tool_index group gs required_weight? with
                  | (.error e, st2, m1) => (.error e, st2, m1)
                  | (.ok weight_ok, st2, m1) =>
                    match mmu_material_check cfg env st2 spool_id tool_index group gs filament_types with
                    | (.error e, st3, m2) => (.error e, st3, m1 ++ m2)
                    | (.ok material_ok, st3, m2) =>
                      match mmu_name_check cfg st3 spool_id tool_index filament_names with
                      | (.error e, st4, m3) => (.error e, st4, m1 ++ m2 ++ m3)
                      | (.ok filament_name_ok, st4, m3) =>
                        (.ok (weight_ok && material_ok && filament_name_ok), st4, m1 ++ m2 ++ m3)
                else (.error .indexError, st1, [])  -- filament_weights[tool_index], line 362

/-- The `for tool_index in range(len(filament_weights))` loop of
`check_mmu_tools` (lines 339-456), threading `all_ok`, the state and the
console output; an escaped exception aborts the loop. -/
def mmu_tools_loop (cfg : CheckConfig) (env : Env) (ttg : Option (List Nat))
    (gsi : Option (List (Option Nat))) (esg : Option (List Nat))
    (filament_weights : List (Option ℚ)) (filament_types filament_names : List String) :
    List Nat → Bool → PluginState → List ConsoleMsg →
    Except PyError Bool × PluginState × List ConsoleMsg
  | [], all_ok, st, msgs => (.ok all_ok, st, msgs)
  | tool_index :: rest, all_ok, st, msgs =>
    match mmu_check_tool cfg env st ttg gsi esg filament_weights filament_types filament_names tool_index with
    | (.error e, st1, m) => (.error e, st1, msgs ++ m)
    | (.ok tool_ok, st1, m) =>
      mmu_tools_loop cfg env ttg gsi esg filament_weights filament_types filament_names
        rest (all_ok && tool_ok) st1 (msgs ++ m)

/-- `check_mmu_tools` (lines 295-457): metadata extraction, the
`refresh_cache` call (modelled as raising when the environment says so),
the backend-configuration reads and the tool loop. -/
def check_mmu_tools (cfg : CheckConfig) (env : Env) (st : PluginState)
    (filename : String) : Except PyError Bool × PluginState × List ConsoleMsg :=
  if !env.spoolman || !env.mmu_server then (.ok true, st, [])
  else
    match env.metadata filename with
    | none => (.ok true, st, [(s!"No metadata available for {filename}", "error")])
    | some md =>
      let filament_weights := md.filament_weights.getD []
      let filament_types := strOrListToList md.filament_type
      let filament_names := strOrListToList md.filament_name
      if env.mmu_refresh_raises then (.error .runtimeError, st, [])
      else
        mmu_tools_loop cfg env env.mmu_ttg_map env.mmu_gate_spool_id env.mmu_endless_spool_groups
          filament_weights filament_types filament_names
          (List.range filament_weights.length) true st []

/-- The outcome of one `run_checks` session. -/
inductive RunOutcome where
  | skipped
  | passed
  | failed
  | raised (e : PyError)
deriving DecidableEq

/-- The try-block of `run_checks` (lines 488-496): the MMU branch or the
sequential single-spool weight and name checks. -/
def run_checks_eval (cfg : CheckConfig) (env : Env) (st : PluginState) (filename : String)
    (is_mmu : Bool) : Except PyError Bool × PluginState × List ConsoleMsg :=
  if is_mmu then check_mmu_tools cfg env st filename
  else
    match check_print_weight cfg env st filename with
    | (.error e, stA, mA) => (.error e, stA, mA)
    | (.ok weight_ok, stA, mA) =>
      match check_filament_name_compliance cfg env stA filename with
      | (.error e, stB, mB) => (.error e, stB, mA ++ mB)
      | (.ok filament_name_ok, stB, mB) => (.ok (weight_ok && filament_name_ok), stB, mA ++ mB)

/-- `run_checks` (lines 459-509).  The spool cache is cleared before the
try-block (line 486) and again in the `finally` (line 509) on every exit
path, including an escaped exception; `.failed` includes the
`pause_print` call, whose own failure is swallowed (lines 503-506). -/
def run_checks (cfg : CheckConfig) (env : Env) (st : PluginState) :
    RunOutcome × PluginState × List ConsoleMsg :=
  if !env.spoolman then
    (.skipped, st, [("Pre-print checks skipped: Spoolman not available", "warning")])
  else
    match env.current_filename with
    | none => (.skipped, st, [("Pre-print checks skipped: No filename available", "warning")])
    | some filename =>
      let is_mmu := env.mmu_server && env.mmu_backend_enabled
      let mode := if is_mmu then "MMU multi-tool" else "Single-spool"
      let header := [(s!"Running {mode} checks for: {filename}", "info")]
      match run_checks_eval cfg env (clear_spool_cache st) filename is_mmu with
      | (.error e, st2, msgs) => (.raised e, clear_spool_cache st2, header ++ msgs)
      | (.ok true, st2, msgs) =>
        (.passed, clear_spool_cache st2,
          header ++ msgs ++ [("✓ All pre-print checks PASSED", "info")])
      | (.ok false, st2, msgs) =>
        (.failed, clear_spool_cache st2,
          header ++ msgs ++ [("✗ Pre-print checks FAILED - Print paused", "error")])

/-- The state handed to the evaluation phase of `run_checks`: `none` when
the session ends before evaluation (no Spoolman, no filename), otherwise
the state as cleared at line 486. -/
def pre_eval_state (env : Env) (st : PluginState) : Option PluginState :=
  if !env.spoolman then none
  else
    match env.current_filename with
    | none => none
    | some _ => some (clear_spool_cache st)

deriving instance DecidableEq for Except

/-! ## Concrete fixtures

Environments and configurations used by the closed counterexample and
witness theorems below.  `spoolRecord w n m` is a spool with remaining
weight `w`, filament name `n` and material `m`. -/

/-- A spool record with the given remaining weight, name and material. -/
def spoolRecord (w : Option ℚ) (n m : Option String) : SpoolInfo := ⟨w, some ⟨n, m⟩⟩

/-- The configuration defaults of `__init__` (margin 5.0g, weight and
material checks on, name check off, severities warning and info). -/
def defaultConfig : CheckConfig := ⟨5, true, true, false, "warning", "info"⟩

/-- An MMU session with one tool on gate 0, spool 3 assigned, and a
spool record that has no `remaining_weight` value. -/
def envMmuNoWeight : Env where
  spoolman := true
  mmu_server := true
  mmu_backend_enabled := true
  active_spool_id := none
  spools := fun n => if n == 3 then some (spoolRecord none (some "X") (some "PLA")) else none
  metadata := fun _ => some ⟨none, some [some 10], some (.list ["PLA"]), none⟩
  current_filename := some "f"
  mmu_ttg_map := some [0]
  mmu_gate_spool_id := some [some 3]
  mmu_endless_spool_groups := some [0]
  mmu_refresh_raises := false

/-- The single-spool analogue of `envMmuNoWeight`: active spool 3 with no
`remaining_weight` value, metadata requiring 10g. -/
def envSingleNoWeight : Env := { envMmuNoWeight with
  mmu_server := false
  mmu_backend_enabled := false
  active_spool_id := some 3
  metadata := fun _ => some ⟨some 10, none, none, none⟩ }

/-- An MMU session whose metadata lists two per-tool weights while the
tool-to-gate map has length 1; tool 0 has plenty of filament. -/
def envShortMap : Env := { envMmuNoWeight with
  spools := fun n => if n == 3 then some (spoolRecord (some 100) (some "X") (some "PLA")) else none
  metadata := fun _ => some ⟨none, some [some 10, some 10], none, none⟩ }

/-- A configuration with no mandatory rule: weight check disabled, the
material check enabled at `warning` severity, the name check disabled. -/
def configNothingMandatory : CheckConfig := ⟨5, false, true, false, "warning", "info"⟩

/-- An MMU session whose only tool's spool fetch fails. -/
def envFetchFail : Env := { envMmuNoWeight with
  spools := fun _ => none
  metadata := fun _ => some ⟨none, some [some 10], some (.list ["PLA"]), none⟩ }

/-- A configuration whose material mismatch severity is `ignore` (and no
other rule active). -/
def configIgnoreMaterial : CheckConfig := ⟨5, false, true, false, "ignore", "info"⟩

/-- An MMU session whose only tool's spool has material PETG while the
metadata expects PLA. -/
def envIgnoreMismatch : Env := { envMmuNoWeight with
  spools := fun n => if n == 3 then some (spoolRecord (some 100) (some "X") (some "PETG")) else none }

/-- An MMU session with one tool on gate 0 and an endless-spool group of
three gates whose spools have remaining weights 100, 50 and 0; metadata
requires 120g per the claim example. -/
def envGroup : Env := { envMmuNoWeight with
  spools := fun n =>
    if n == 1 then some (spoolRecord (some 100) none (some "PLA"))
    else if n == 2 then some (spoolRecord (some 50) none (some "PLA"))
    else if n == 3 then some (spoolRecord (some 0) none (some "PLA")) else none
  metadata := fun _ => some ⟨none, some [some 120], none, none⟩
  mmu_gate_spool_id := some [some 1, some 2, some 3]
  mmu_endless_spool_groups := some [4, 4, 4] }

/-- The gate-to-spool list of `envGroup`. -/
def gsGroup : List (Option Nat) := [some 1, some 2, some 3]

/-- The state after fetching gate 0's spool in `envGroup`. -/
def stGroup : PluginState := ⟨some (spoolRecord (some 100) none (some "PLA")), none⟩

/-- A two-gate endless-spool group whose spools agree on material PLA. -/
def envGroupPLA : Env := { envGroup with
  spools := fun n =>
    if n == 1 then some (spoolRecord (some 100) none (some "PLA"))
    else if n == 2 then some (spoolRecord (some 50) none (some "PLA")) else none
  metadata := fun _ => some ⟨none, some [some 120], some (.list ["PLA"]), none⟩
  mmu_gate_spool_id := some [some 1, some 2]
  mmu_endless_spool_groups := some [4, 4] }

/-- A two-gate endless-spool group whose spools disagree (PLA vs PETG). -/
def envGroupMixed : Env := { envGroupPLA with
  spools := fun n =>
    if n == 1 then some (spoolRecord (some 100) none (some "PLA"))
    else if n == 2 then some (spoolRecord (some 50) none (some "PETG")) else none }

/-- The spec scenario spool: 82.0g remaining, named X. -/
def spoolShortBy3 : SpoolInfo := spoolRecord (some 82) (some "X") none

/-- A single-spool session requiring 80g from a spool holding 82g: with
the default 5g margin the weight rule fails short by 3.0g. -/
def envShortBy3 : Env := { envSingleNoWeight with
  spools := fun n => if n == 3 then some spoolShortBy3 else none
  metadata := fun _ => some ⟨some 80, none, none, none⟩ }

/-- A configuration with the material check at `error` severity. -/
def configMaterialError : CheckConfig := ⟨5, true, true, false, "error", "info"⟩

/-- A single-spool session whose spool material (PETG) contradicts the
metadata (PLA) while the weight rule passes comfortably. -/
def envSingleMaterialMismatch : Env := { envSingleNoWeight with
  spools := fun n => if n == 3 then some (spoolRecord (some 100) (some "X") (some "PETG")) else none
  metadata := fun _ => some ⟨some 10, none, some (.list ["PLA"]), none⟩ }

/-- A single-spool session with no active spool id set. -/
def envNoActive : Env := { envSingleNoWeight with active_spool_id := none }

/-- A single-spool session whose active spool record cannot be fetched. -/
def envFetchFailSingle : Env := { envSingleNoWeight with spools := fun _ => none }

/-! ## Helper lemmas -/

/-- A fresh `_init_spool` run: empty cache, an active spool id and a
fetchable record give that id and fill the cache. -/
theorem init_spool_fresh (env : Env) (st : PluginState) (sid : Nat) (info : SpoolInfo)
    (hs : env.spoolman = true) (hc : st.cached_spool_id = none)
    (ha : env.active_spool_id = some sid) (hf : env.spools sid = some info) :
    init_spool env st = (some sid, ⟨some info, some sid⟩) := by
  simp [init_spool, hs, hc, ha, hf]

/-- `_init_spool` with no active spool id set returns `none` and leaves
the state unchanged. -/
theorem init_spool_inactive (env : Env) (st : PluginState)
    (ha : env.active_spool_id = none) :
    init_spool env st = (none, st) := by
  unfold init_spool
  rcases hb : env.spoolman <;> simp [ha]

/-- `_init_spool` with an empty cache and a failing fetch returns `none`
and clears both cache fields. -/
theorem init_spool_fetch_fail (env : Env) (st : PluginState) (sid : Nat)
    (hs : env.spoolman = true) (hc : st.cached_spool_id = none)
    (ha : env.active_spool_id = some sid) (hf : env.spools sid = none) :
    init_spool env st = (none, ⟨none, none⟩) := by
  simp [init_spool, hs, ha, hc, hf]

/-- The MMU weight comparison: passes exactly when the remaining weight
reaches required plus margin, and on failure the one console message
carries the deficit formatted by `fmt1`. -/
theorem mmu_weight_compare_spec (cfg : CheckConfig) (st : PluginState)
    (spool_id tool_index : Nat) (r o : ℚ) :
    (mmu_weight_compare cfg st spool_id tool_index r o).1
        = .ok (decide (r + cfg.weight_margin ≤ o))
      ∧ (o < r + cfg.weight_margin →
          ∃ p q, (mmu_weight_compare cfg st spool_id tool_index r o).2.2
            = [(p ++ fmt1 (r + cfg.weight_margin - o) ++ q, "error")]) := by
  unfold mmu_weight_compare
  by_cases h : r + cfg.weight_margin ≤ o
  · simp [h]
  · refine ⟨by simp [h], fun _ => ?_⟩
    simp only [if_neg h]
    exact ⟨_, _, rfl⟩

/-- Once `all_ok` is false, the tool loop can only return an overall
`false` verdict (or abort with an exception). -/
theorem mmu_tools_loop_false (cfg : CheckConfig) (env : Env) (ttg : Option (List Nat))
    (gsi : Option (List (Option Nat))) (esg : Option (List Nat))
    (fw : List (Option ℚ)) (ft fn : List String) :
    ∀ (idxs : List Nat) (st : PluginState) (msgs : List ConsoleMsg)
      (b : Bool) (st' : PluginState) (msgs' : List ConsoleMsg),
      mmu_tools_loop cfg env ttg gsi esg fw ft fn idxs false st msgs = (.ok b, st', msgs') →
      b = false := by
  intro idxs
  induction idxs with
  | nil =>
    intro st msgs b st' msgs' h
    simp only [mmu_tools_loop, Prod.mk.injEq, Except.ok.injEq] at h
    exact h.1.symm
  | cons i rest ih =>
    intro st msgs b st' msgs' h
    rw [mmu_tools_loop] at h
    rcases hct : mmu_check_tool cfg env st ttg gsi esg fw ft fn i with ⟨r, st1, m⟩
    rw [hct] at h
    rcases r with e | tool_ok
    · simp at h
    · simp only [Bool.false_and] at h
      exact ih st1 (msgs ++ m) b st' msgs' h

/-! ## The claims -/

/-- C2: for every `run_checks` invocation that reaches the evaluation
phase (Spoolman present, a current filename available), the spool cache
is empty immediately before evaluation begins, and empty again in the
final state for every outcome — pass, fail, or an escaped exception —
because the theorem quantifies over all environments, hence over all
three outcome shapes of the evaluation phase. -/
theorem c2_cache_cleared (cfg : CheckConfig) (env : Env) (st : PluginState) (f : String)
    (hs : env.spoolman = true) (hf : env.current_filename = some f) :
    pre_eval_state env st = some ⟨none, none⟩
      ∧ (run_checks cfg env st).2.1.cached_spool_info = none
      ∧ (run_checks cfg env st).2.1.cached_spool_id = none := by
  refine ⟨by simp [pre_eval_state, hs, hf, clear_spool_cache], ?_⟩
  unfold run_checks
  simp only [hs, hf, Bool.not_true, Bool.false_eq_true, if_false]
  rcases hE : run_checks_eval cfg env (clear_spool_cache st) f
      (env.mmu_server && env.mmu_backend_enabled) with ⟨r, s2, m⟩
  rcases r with e | b
  · simp [clear_spool_cache]
  · cases b <;> simp [clear_spool_cache]

/-- C2 witness: a concrete session (single-spool, active spool with a
record) starting from a dirty cache. -/
theorem c2_cache_cleared_witness :
    pre_eval_state envSingleNoWeight ⟨some (spoolRecord (some 1) none none), some 9⟩
        = some ⟨none, none⟩
      ∧ (run_checks defaultConfig envSingleNoWeight
          ⟨some (spoolRecord (some 1) none none), some 9⟩).2.1.cached_spool_info = none
      ∧ (run_checks defaultConfig envSingleNoWeight
          ⟨some (spoolRecord (some 1) none none), some 9⟩).2.1.cached_spool_id = none :=
  c2_cache_cleared defaultConfig envSingleNoWeight
    ⟨some (spoolRecord (some 1) none none), some 9⟩ "f" rfl rfl

/-- C4: the claim says a missing observed remaining weight skips the
weight rule as a pass in both modes.  Single-spool mode does skip
(conjuncts 3 and 4), but in MMU mode the comparison
`remaining_weight >= required_with_margin` at line 383 is reached with
`remaining_weight = None` and raises a `TypeError` that escapes
`run_checks` (conjuncts 1 and 2): the code contradicts the documented
skip behaviour. -/
theorem c4_missing_weight_divergence :
    (check_mmu_tools defaultConfig envMmuNoWeight ⟨none, none⟩ "f").1 = .error .typeError
      ∧ (run_checks defaultConfig envMmuNoWeight ⟨none, none⟩).1 = .raised .typeError
      ∧ (check_print_weight defaultConfig envSingleNoWeight ⟨none, none⟩ "f").1 = .ok true
      ∧ (check_print_weight defaultConfig envSingleNoWeight ⟨none, none⟩ "f").2.2
          = [("Spool has no remaining weight data, skipping check", "info")] := by
  with_unfolding_all decide

/-- C5 counterexample: metadata with two per-tool weights against a
tool-to-gate map of length 1.  The claim requires the session to abort
with a single error result; instead the out-of-range tool is skipped,
tool 0 is evaluated normally, the overall result is a plain pass and no
console message is emitted. -/
theorem c5_short_map_counterexample :
    (check_mmu_tools defaultConfig envShortMap ⟨none, none⟩ "f").1 = .ok true
      ∧ (check_mmu_tools defaultConfig envShortMap ⟨none, none⟩ "f").2.2 = [] := by
  with_unfolding_all decide

/-- C5 amended: a tool index at or beyond the end of the tool-to-gate
map is skipped with only a logged error — the per-tool result is a pass
that leaves state and console untouched, and the loop simply continues
with the remaining tools; the session is not aborted. -/
theorem c5_short_map_skips (cfg : CheckConfig) (env : Env) (st : PluginState)
    (ttg_map : List Nat) (gsi : Option (List (Option Nat))) (esg : Option (List Nat))
    (fw : List (Option ℚ)) (ft fn : List String) (i : Nat)
    (h : ttg_map.length ≤ i) :
    mmu_check_tool cfg env st (some ttg_map) gsi esg fw ft fn i = (.ok true, st, [])
      ∧ ∀ (rest : List Nat) (all_ok : Bool) (msgs : List ConsoleMsg),
          mmu_tools_loop cfg env (some ttg_map) gsi esg fw ft fn (i :: rest) all_ok st msgs
            = mmu_tools_loop cfg env (some ttg_map) gsi esg fw ft fn rest all_ok st msgs := by
  have h1 : mmu_check_tool cfg env st (some ttg_map) gsi esg fw ft fn i = (.ok true, st, []) := by
    unfold mmu_check_tool
    simp [h]
  refine ⟨h1, fun rest all_ok msgs => ?_⟩
  rw [mmu_tools_loop, h1]
  simp

/-- C5 witness: the skip applied to the concrete short-map session. -/
theorem c5_short_map_skips_witness :
    mmu_check_tool defaultConfig envShortMap ⟨none, none⟩ (some [0]) (some [some 3]) (some [0])
        [some 10, some 10] [] [] 1 = (.ok true, ⟨none, none⟩, [])
      ∧ ∀ (rest : List Nat) (all_ok : Bool) (msgs : List ConsoleMsg),
          mmu_tools_loop defaultConfig envShortMap (some [0]) (some [some 3]) (some [0])
              [some 10, some 10] [] [] (1 :: rest) all_ok ⟨none, none⟩ msgs
            = mmu_tools_loop defaultConfig envShortMap (some [0]) (some [some 3]) (some [0])
                [some 10, some 10] [] [] rest all_ok ⟨none, none⟩ msgs :=
  c5_short_map_skips defaultConfig envShortMap ⟨none, none⟩ [0] (some [some 3]) (some [0])
    [some 10, some 10] [] [] 1 (by decide)

/-- C6 counterexample: a session with no mandatory rule (weight check
disabled, material at `warning` severity, name check disabled) whose only
tool's fetch fails.  The claim says the failure contributes to the
verdict only if one of the tool's rules was mandatory; the code sets
`all_ok = False` unconditionally, so the session fails anyway. -/
theorem c6_fetch_fail_counterexample :
    (check_mmu_tools configNothingMandatory envFetchFail ⟨none, none⟩ "f").1 = .ok false
      ∧ (run_checks configNothingMandatory envFetchFail ⟨none, none⟩).1 = .failed := by
  with_unfolding_all decide

/-- C6 amended: a failed fetch for one tool is non-fatal to the session —
the per-tool result is an `.ok false` (no exception), the loop continues
with the remaining tools carrying `all_ok = false` — but it always
contributes to the overall fail verdict, whatever the configured rules
and severities: once `all_ok` is false, the loop can only return `false`. -/
theorem c6_fetch_fail_nonfatal (cfg : CheckConfig) (env : Env) (st : PluginState)
    (ttg_map : List Nat) (gs : List (Option Nat)) (esg_list : List Nat)
    (fw : List (Option ℚ)) (ft fn : List String) (i sid : Nat) (group : List Nat)
    (h1 : i < ttg_map.length)
    (h3 : gate_group esg_list (ttg_map.getD i 0) = .ok group)
    (h4 : (if ttg_map.getD i 0 < gs.length then gs.getD (ttg_map.getD i 0) none else none)
            = some sid)
    (h5 : env.spools sid = none) :
    mmu_check_tool cfg env st (some ttg_map) (some gs) (some esg_list) fw ft fn i
        = (.ok false, { st with cached_spool_info := none },
           [(s!"Cannot fetch spool {sid} info for tool {i}, skipping checks", "error")])
      ∧ (∀ (rest : List Nat) (all_ok : Bool) (msgs : List ConsoleMsg),
          mmu_tools_loop cfg env (some ttg_map) (some gs) (some esg_list) fw ft fn
              (i :: rest) all_ok st msgs
            = mmu_tools_loop cfg env (some ttg_map) (some gs) (some esg_list) fw ft fn
                rest false { st with cached_spool_info := none }
                (msgs ++ [(s!"Cannot fetch spool {sid} info for tool {i}, skipping checks", "error")]))
      ∧ (∀ (idxs : List Nat) (st0 : PluginState) (msgs : List ConsoleMsg)
            (b : Bool) (st' : PluginState) (msgs' : List ConsoleMsg),
          mmu_tools_loop cfg env (some ttg_map) (some gs) (some esg_list) fw ft fn
              idxs false st0 msgs = (.ok b, st', msgs') → b = false) := by
  have hmain : mmu_check_tool cfg env st (some ttg_map) (some gs) (some esg_list) fw ft fn i
      = (.ok false, { st with cached_spool_info := none },
         [(s!"Cannot fetch spool {sid} info for tool {i}, skipping checks", "error")]) := by
    unfold mmu_check_tool
    simp only [if_neg (Nat.not_le.mpr h1), h3, h4, h5]
  refine ⟨hmain, fun rest all_ok msgs => ?_,
    fun idxs st0 msgs b st' msgs' h => mmu_tools_loop_false cfg env _ _ _ fw ft fn idxs st0 msgs b st' msgs' h⟩
  rw [mmu_tools_loop, hmain]
  simp

/-- C6 witness for the amended statement: the concrete fetch-failure
session of the counterexample, tool 0 on gate 0, spool 3 unfetchable. -/
theorem c6_fetch_fail_nonfatal_witness :
    mmu_check_tool configNothingMandatory envFetchFail ⟨none, none⟩ (some [0]) (some [some 3])
        (some [0]) [some 10] ["PLA"] [] 0
      = (.ok false, ⟨none, none⟩,
         [("Cannot fetch spool 3 info for tool 0, skipping checks", "error")]) :=
  (c6_fetch_fail_nonfatal configNothingMandatory envFetchFail ⟨none, none⟩ [0] [some 3] [0]
    [some 10] ["PLA"] [] 0 3 [0] (by decide) (by with_unfolding_all decide)
    (by decide) rfl).1

/-- C3 counterexample: an MMU session whose material mismatch severity is
`ignore` and whose single tool's spool material (PETG) differs from the
metadata (PLA).  The claim requires the rule never to be evaluated, to
always pass and to emit no mismatch message; instead the rule runs, the
mismatch message is emitted at severity `ignore`, the per-tool result is
`false` and the whole session fails. -/
theorem c3_ignore_counterexample :
    (check_mmu_tools configIgnoreMaterial envIgnoreMismatch ⟨none, none⟩ "f").1 = .ok false
      ∧ (check_mmu_tools configIgnoreMaterial envIgnoreMismatch ⟨none, none⟩ "f").2.2
          = [("Tool 0 Material Check FAILED: Spool 3 has material 'PETG' but gcode expects 'PLA'",
              "ignore")]
      ∧ (run_checks configIgnoreMaterial envIgnoreMismatch ⟨none, none⟩).1 = .failed := by
  with_unfolding_all decide

/-- One grouped-weight step adds the weight resolved through the
slot-assignment, fetch, and remaining-weight chain, or zero when any
stage is absent. -/
theorem group_sum_step_eq (env : Env) (gs : List (Option Nat)) (acc : ℚ) (g : Nat) :
    group_sum_step env gs acc g
      = acc + ((((if g < gs.length then gs.getD g none else none).bind env.spools).bind
          SpoolInfo.remaining_weight).getD 0) := by
  unfold group_sum_step
  rcases h1 : (if g < gs.length then gs.getD g none else none) with _ | sid
  · simp
  · rcases h2 : env.spools sid with _ | info
    · simp [h2]
    · rcases h3 : info.remaining_weight with _ | rw
      · simp [h2, h3]
      · simp [h2, h3]

/-- The grouped-weight fold is the starting value plus the sum of the
resolvable weights. -/
theorem group_sum_foldl (env : Env) (gs : List (Option Nat)) :
    ∀ (group : List Nat) (acc : ℚ),
      group.foldl (group_sum_step env gs) acc
        = acc + (group.filterMap fun g =>
            ((if g < gs.length then gs.getD g none else none).bind env.spools).bind
              SpoolInfo.remaining_weight).sum := by
  intro group
  induction group with
  | nil => intro acc; simp
  | cons g rest ih =>
    intro acc
    rw [List.foldl_cons, ih, group_sum_step_eq]
    simp only [List.filterMap_cons]
    rcases h : ((if g < gs.length then gs.getD g none else none).bind env.spools).bind
        SpoolInfo.remaining_weight with _ | w
    · simp
    · simp [add_assoc]

/-- `group_sum` is the sum of the remaining weights over the grouped
slots, skipping slots with no assigned spool, slots whose fetch fails,
and records without a remaining-weight value. -/
theorem group_sum_eq (env : Env) (gs : List (Option Nat)) (group : List Nat) :
    group_sum env gs group
      = (group.filterMap fun g =>
          ((if g < gs.length then gs.getD g none else none).bind env.spools).bind
            SpoolInfo.remaining_weight).sum := by
  unfold group_sum
  rw [group_sum_foldl]
  simp

/-- Lower-casing a non-empty string gives a non-empty string. -/
theorem toLower_ne_of_ne (s : String) (h : s ≠ "") : s.toLower ≠ "" := by
  intro hc
  apply h
  have hd := congrArg String.data hc
  unfold String.toLower at hd
  rw [String.map_eq] at hd
  simp only [List.map_eq_nil_iff] at hd
  cases s
  simp_all

/-- Whatever the grouped-material step adds beyond the accumulator is a
non-empty string. -/
theorem group_materials_step_mem (env : Env) (gs : List (Option Nat)) (acc : List String)
    (g : Nat) (x : String) (hx : x ∈ group_materials_step env gs acc g) :
    x ∈ acc ∨ x ≠ "" := by
  simp only [group_materials_step] at hx
  split at hx
  · exact .inl hx
  · split at hx
    · exact .inl hx
    · split at hx
      · exact .inl hx
      · split at hx
        · exact .inl hx
        · rcases List.mem_append.mp hx with h | h
          · exact .inl h
          · right
            rename_i hsm hcont
            rw [List.mem_singleton] at h
            subst h
            exact toLower_ne_of_ne _ (by simpa using hsm)

/-- Every collected grouped material is a non-empty string. -/
theorem group_materials_ne (env : Env) (gs : List (Option Nat)) (group : List Nat) :
    ∀ x ∈ group_materials env gs group, x ≠ "" := by
  suffices h : ∀ (l : List Nat) (acc : List String), (∀ x ∈ acc, x ≠ "") →
      ∀ x ∈ l.foldl (group_materials_step env gs) acc, x ≠ "" by
    intro x hx
    exact h group [] (by simp) x hx
  intro l
  induction l with
  | nil => intro acc h; simpa using h
  | cons g rest ih =>
    intro acc hacc
    rw [List.foldl_cons]
    apply ih
    intro x hx
    rcases group_materials_step_mem env gs acc g x hx with h | h
    · exact hacc x h
    · exact h

/-- C3 amended: in single-spool mode a name severity of `ignore` does
short-circuit the rule before any fetch — the result is a pass, the state
is untouched and nothing is emitted.  In MMU mode `ignore` does not
short-circuit any rule: on a mismatch the material rule, both for an
ungrouped tool (part 2) and through a grouped consensus resolving to one
material (part 3), and the name rule (part 4) are still evaluated, the
mismatch message is emitted at severity `ignore`, and the rule returns
`false` — the mismatch counts against the verdict at every severity. -/
theorem c3_ignore_semantics :
    (∀ (cfg : CheckConfig) (env : Env) (st : PluginState) (f : String),
        cfg.filament_name_mismatch_severity = "ignore" →
        check_filament_name_compliance cfg env st f = (.ok true, st, []))
      ∧ (∀ (cfg : CheckConfig) (env : Env) (st : PluginState) (sid i : Nat)
            (group : List Nat) (gs : List (Option Nat)) (types : List String)
            (info : SpoolInfo),
          cfg.enable_material_check = true →
          i < types.length →
          group.length ≤ 1 →
          st.cached_spool_info = some info →
          ((filament_material_get info).trim == "") = false →
          ((filament_material_get info).trim.toLower == (types.getD i "").trim.toLower) = false →
          cfg.material_mismatch_severity = "ignore" →
          (mmu_material_check cfg env st sid i group gs types).1 = .ok false
            ∧ ∃ m, (mmu_material_check cfg env st sid i group gs types).2.2 = [(m, "ignore")])
      ∧ (∀ (cfg : CheckConfig) (env : Env) (st : PluginState) (sid i : Nat)
            (group : List Nat) (gs : List (Option Nat)) (types : List String) (m : String),
          cfg.enable_material_check = true →
          i < types.length →
          1 < group.length →
          group_materials env gs group = [m] →
          m.toLower ≠ (types.getD i "").trim.toLower →
          cfg.material_mismatch_severity = "ignore" →
          (mmu_material_check cfg env st sid i group gs types).1 = .ok false
            ∧ ∃ msg, (mmu_material_check cfg env st sid i group gs types).2.2
                = [(msg, "ignore")])
      ∧ (∀ (cfg : CheckConfig) (st : PluginState) (sid i : Nat)
            (names : List String) (info : SpoolInfo),
          cfg.enable_filament_name_check = true →
          i < names.length →
          st.cached_spool_info = some info →
          ((filament_name_getD info "").trim == "") = false →
          ((filament_name_getD info "").trim.toLower == (names.getD i "").trim.toLower) = false →
          cfg.filament_name_mismatch_severity = "ignore" →
          (mmu_name_check cfg st sid i names).1 = .ok false
            ∧ ∃ msg, (mmu_name_check cfg st sid i names).2.2 = [(msg, "ignore")]) := by
  refine ⟨?_, ?_, ?_, ?_⟩
  · intro cfg env st f h
    unfold check_filament_name_compliance
    simp [h]
  · intro cfg env st sid i group gs types info h1 h2 h3 h4 h5 h6 h7
    unfold mmu_material_check
    simp only [h1, h2, if_neg (Nat.not_lt.mpr h3), h4, Option.getD_some, h5, h6, h7,
      Bool.true_and, decide_True, if_true, Bool.false_eq_true, if_false]
    exact ⟨by trivial, _, rfl⟩
  · intro cfg env st sid i group gs types m h1 h2 hg hm hmm h7
    have hne : m ≠ "" := group_materials_ne env gs group m (by simp [hm])
    unfold mmu_material_check
    simp only [h1, h2, if_pos hg, hm, decide_True, Bool.true_and, if_true]
    simp only [List.length_singleton, List.headD_cons, beq_self_eq_true, if_true,
      Option.getD_some]
    rw [if_neg (by simpa using hne)]
    split
    next hcond => exact absurd (by simpa using hcond) (by simpa using hmm)
    next hcond =>
      simp only [h7]
      exact ⟨by trivial, _, rfl⟩
  · intro cfg st sid i names info h1 h2 h4 h5 h6 h7
    unfold mmu_name_check
    simp only [h1, h2, h4, h5, h6, h7, Bool.true_and, decide_True, if_true,
      Bool.false_eq_true, if_false]
    exact ⟨by trivial, _, rfl⟩

/-- C3 witness for the amended statement: the short-circuited single-spool
name rule at severity `ignore`; the evaluated-but-still-failing MMU
material rule of the counterexample session (ungrouped); a grouped
consensus resolving to pla against metadata PETG; and the MMU name rule
with spool name X against metadata Other — each mismatch emitted at
severity `ignore` and returned as `false`. -/
theorem c3_ignore_semantics_witness :
    check_filament_name_compliance ⟨5, true, true, true, "warning", "ignore"⟩ envIgnoreMismatch
        ⟨none, none⟩ "f" = (.ok true, ⟨none, none⟩, [])
      ∧ ((mmu_material_check configIgnoreMaterial envIgnoreMismatch
            ⟨some (spoolRecord (some 100) (some "X") (some "PETG")), none⟩ 3 0 [0] [some 3]
            ["PLA"]).1 = .ok false
          ∧ ∃ m, (mmu_material_check configIgnoreMaterial envIgnoreMismatch
              ⟨some (spoolRecord (some 100) (some "X") (some "PETG")), none⟩ 3 0 [0] [some 3]
              ["PLA"]).2.2 = [(m, "ignore")])
      ∧ ((mmu_material_check configIgnoreMaterial envGroupPLA stGroup 1 0 [0, 1]
            [some 1, some 2] ["PETG"]).1 = .ok false
          ∧ ∃ msg, (mmu_material_check configIgnoreMaterial envGroupPLA stGroup 1 0 [0, 1]
              [some 1, some 2] ["PETG"]).2.2 = [(msg, "ignore")])
      ∧ ((mmu_name_check ⟨5, false, false, true, "warning", "ignore"⟩
            ⟨some (spoolRecord (some 100) (some "X") (some "PLA")), none⟩ 3 0 ["Other"]).1
            = .ok false
          ∧ ∃ msg, (mmu_name_check ⟨5, false, false, true, "warning", "ignore"⟩
              ⟨some (spoolRecord (some 100) (some "X") (some "PLA")), none⟩ 3 0
              ["Other"]).2.2 = [(msg, "ignore")]) :=
  ⟨c3_ignore_semantics.1 ⟨5, true, true, true, "warning", "ignore"⟩ envIgnoreMismatch
      ⟨none, none⟩ "f" rfl,
    c3_ignore_semantics.2.1 configIgnoreMaterial envIgnoreMismatch
      ⟨some (spoolRecord (some 100) (some "X") (some "PETG")), none⟩ 3 0 [0] [some 3] ["PLA"]
      (spoolRecord (some 100) (some "X") (some "PETG")) rfl (by decide) (by decide) rfl
      (by with_unfolding_all decide) (by with_unfolding_all decide) rfl,
    c3_ignore_semantics.2.2.1 configIgnoreMaterial envGroupPLA stGroup 1 0 [0, 1]
      [some 1, some 2] ["PETG"] "pla" rfl (by decide) (by decide)
      (by with_unfolding_all decide) (by with_unfolding_all decide) rfl,
    c3_ignore_semantics.2.2.2 ⟨5, false, false, true, "warning", "ignore"⟩
      ⟨some (spoolRecord (some 100) (some "X") (some "PLA")), none⟩ 3 0 ["Other"]
      (spoolRecord (some 100) (some "X") (some "PLA")) rfl (by decide) rfl
      (by with_unfolding_all decide) (by with_unfolding_all decide) rfl⟩

/-- C7: in an MMU weight evaluation of a tool whose slot belongs to a
group of more than one slot, the observed weight compared against
required plus margin is `group_sum`, which equals the sum of remaining
weights over the grouped slots skipping unassigned slots, failed fetches
and records without a remaining weight. -/
theorem c7_group_weight_aggregation (cfg : CheckConfig) (env : Env) (st : PluginState)
    (sid i : Nat) (group : List Nat) (gs : List (Option Nat)) (r : ℚ) (info : SpoolInfo)
    (h1 : st.cached_spool_info = some info)
    (h2 : 1 < group.length)
    (h3 : cfg.enable_weight_check = true) :
    (mmu_weight_check cfg env st sid i group gs (some r)).1
        = .ok (decide (r + cfg.weight_margin ≤ group_sum env gs group))
      ∧ group_sum env gs group
          = (group.filterMap fun g =>
              ((if g < gs.length then gs.getD g none else none).bind env.spools).bind
                SpoolInfo.remaining_weight).sum := by
  refine ⟨?_, group_sum_eq env gs group⟩
  unfold mmu_weight_check
  simp only [h3, if_pos h2, h1, if_true]
  exact (mmu_weight_compare_spec cfg _ sid i r (group_sum env gs group)).1

/-- C7 witness: the claim example — a group of three slots with remaining
weights 100, 50 and 0 against a required weight of 120 at margin 5
aggregates to 150, and 150 is at least 125, so the weight rule passes. -/
theorem c7_group_weight_aggregation_witness :
    (mmu_weight_check defaultConfig envGroup stGroup 1 0 [0, 1, 2] gsGroup (some 120)).1
        = .ok true
      ∧ group_sum envGroup gsGroup [0, 1, 2] = 150 := by
  have h := c7_group_weight_aggregation defaultConfig envGroup stGroup 1 0 [0, 1, 2] gsGroup
    120 (spoolRecord (some 100) none (some "PLA")) rfl (by decide) rfl
  refine ⟨?_, by with_unfolding_all decide⟩
  rw [h.1]
  with_unfolding_all decide

/-- C8: in an MMU material evaluation of a tool whose slot belongs to a
group of more than one slot, the collected set is `group_materials` (the
lower-cased non-empty material strings of the grouped spools); exactly
one distinct element is the resolved material compared against the
metadata, while zero or several distinct elements make the material
ambiguous, so the rule is skipped with an info notice and never counted
as a failure. -/
theorem c8_group_material_consensus (cfg : CheckConfig) (env : Env) (st : PluginState)
    (sid i : Nat) (group : List Nat) (gs : List (Option Nat)) (types : List String)
    (h1 : cfg.enable_material_check = true) (h2 : i < types.length)
    (h3 : 1 < group.length) :
    ((group_materials env gs group).length = 1 →
        ∃ m, group_materials env gs group = [m]
          ∧ (mmu_material_check cfg env st sid i group gs types).1
              = .ok (m.toLower == (types.getD i "").trim.toLower))
      ∧ ((group_materials env gs group).length ≠ 1 →
          (mmu_material_check cfg env st sid i group gs types).1 = .ok true
            ∧ (mmu_material_check cfg env st sid i group gs types).2.2
                = [(s!"Tool {i} Spool {sid} has no material data, skipping material check",
                    "info")]) := by
  constructor
  · intro hlen
    obtain ⟨m, hm⟩ := List.length_eq_one.mp hlen
    have hne : m ≠ "" := group_materials_ne env gs group m (by simp [hm])
    refine ⟨m, hm, ?_⟩
    unfold mmu_material_check
    simp only [h1, h2, if_pos h3, hm, decide_True, Bool.true_and, if_true]
    simp only [List.length_singleton, List.headD_cons, beq_self_eq_true, if_true,
      Option.getD_some]
    rw [if_neg (by simpa using hne)]
    split
    next hcond =>
      simp [hcond]
      simpa using hcond
    next hcond =>
      have hb := hcond
      simp only [Bool.not_eq_true] at hb
      simp [hb]
      simpa using hb
  · intro hlen
    unfold mmu_material_check
    simp only [h1, h2, if_pos h3, decide_True, Bool.true_and, if_true]
    rw [if_neg (by simpa using hlen)]
    simp

/-- C8 witness: group materials PLA and PLA resolve to one element (and
the rule compares it against the metadata, here matching), while PLA and
PETG are ambiguous, so the rule is skipped with the info notice and
passes. -/
theorem c8_group_material_consensus_witness :
    group_materials envGroupPLA [some 1, some 2] [0, 1] = ["pla"]
      ∧ (mmu_material_check defaultConfig envGroupPLA stGroup 1 0 [0, 1] [some 1, some 2]
          ["PLA"]).1 = .ok true
      ∧ group_materials envGroupMixed [some 1, some 2] [0, 1] = ["pla", "petg"]
      ∧ (mmu_material_check defaultConfig envGroupMixed stGroup 1 0 [0, 1] [some 1, some 2]
          ["PLA"]).1 = .ok true
      ∧ (mmu_material_check defaultConfig envGroupMixed stGroup 1 0 [0, 1] [some 1, some 2]
          ["PLA"]).2.2
          = [("Tool 0 Spool 1 has no material data, skipping material check", "info")] := by
  refine ⟨by with_unfolding_all decide, ?_, by with_unfolding_all decide, ?_, ?_⟩
  · obtain ⟨m, hm, hres⟩ := (c8_group_material_consensus defaultConfig envGroupPLA stGroup 1 0
      [0, 1] [some 1, some 2] ["PLA"] rfl (by decide) (by decide)).1 (by with_unfolding_all decide)
    rw [hres]
    have hm2 : m = "pla" := by
      have h2 : group_materials envGroupPLA [some 1, some 2] [0, 1] = ["pla"] := by
        with_unfolding_all decide
      have h3 : ([m] : List String) = ["pla"] := by rw [← hm, h2]
      simpa using h3
    subst hm2
    with_unfolding_all decide
  · exact ((c8_group_material_consensus defaultConfig envGroupMixed stGroup 1 0 [0, 1]
      [some 1, some 2] ["PLA"] rfl (by decide) (by decide)).2
      (by with_unfolding_all decide)).1
  · exact ((c8_group_material_consensus defaultConfig envGroupMixed stGroup 1 0 [0, 1]
      [some 1, some 2] ["PLA"] rfl (by decide) (by decide)).2
      (by with_unfolding_all decide)).2

/-- C1: wherever the weight rule is evaluated with a present required
weight and a present observed remaining weight — the single-spool check
with a fetched record, or the MMU weight section with the ungrouped
cached weight or the grouped aggregate as observed value — the rule
passes exactly when `observed >= required + weight_margin`, and on
failure the one emitted error message carries the deficit
`required + margin - observed` formatted to one decimal place. -/
theorem c1_weight_rule (cfg : CheckConfig) (env : Env) (st st2 : PluginState) (f : String)
    (sid sid2 : Nat) (info info2 : SpoolInfo) (md : JobMetadata) (r o : ℚ)
    (tool_index : Nat) (group : List Nat) (gs : List (Option Nat)) (r2 o2 : ℚ)
    (hs : env.spoolman = true) (hw : cfg.enable_weight_check = true)
    (hc : st.cached_spool_id = none) (ha : env.active_spool_id = some sid)
    (hfe : env.spools sid = some info) (hmd : env.metadata f = some md)
    (hr : md.filament_weight_total = some r) (ho : info.remaining_weight = some o)
    (hc2 : st2.cached_spool_info = some info2)
    (ho2 : if 1 < group.length then o2 = group_sum env gs group
           else info2.remaining_weight = some o2) :
    ((check_print_weight cfg env st f).1 = .ok (decide (r + cfg.weight_margin ≤ o))
        ∧ (o < r + cfg.weight_margin →
            ∃ p q, (check_print_weight cfg env st f).2.2
              = [(p ++ fmt1 (r + cfg.weight_margin - o) ++ q, "error")]))
      ∧ ((mmu_weight_check cfg env st2 sid2 tool_index group gs (some r2)).1
            = .ok (decide (r2 + cfg.weight_margin ≤ o2))
          ∧ (o2 < r2 + cfg.weight_margin →
              ∃ p q, (mmu_weight_check cfg env st2 sid2 tool_index group gs (some r2)).2.2
                = [(p ++ fmt1 (r2 + cfg.weight_margin - o2) ++ q, "error")])) := by
  constructor
  · constructor
    · unfold check_print_weight
      rw [init_spool_fresh env st sid info hs hc ha hfe]
      simp only [hs, hw, Bool.not_true, Bool.or_self, Bool.false_eq_true, if_false,
        hmd, hr, ho]
      by_cases hle : r + cfg.weight_margin ≤ o
      · simp [hle]
      · simp [hle]
    · intro hlt
      unfold check_print_weight
      rw [init_spool_fresh env st sid info hs hc ha hfe]
      simp only [hs, hw, Bool.not_true, Bool.or_self, Bool.false_eq_true, if_false,
        hmd, hr, ho]
      rw [if_neg (not_le.mpr hlt)]
      exact ⟨_, _, rfl⟩
  · by_cases hg : 1 < group.length
    · rw [if_pos hg] at ho2
      subst ho2
      unfold mmu_weight_check
      simp only [hw, if_pos hg, hc2, if_true]
      exact mmu_weight_compare_spec cfg _ sid2 tool_index r2 (group_sum env gs group)
    · rw [if_neg hg] at ho2
      unfold mmu_weight_check
      simp only [hw, if_neg hg, hc2, ho2, if_true]
      exact mmu_weight_compare_spec cfg st2 sid2 tool_index r2 o2

/-- C1 witness: the spec scenario — 80g required from a spool holding
82g at margin 5 fails short by 3.0g in both the single-spool check and
the MMU weight section with that spool cached. -/
theorem c1_weight_rule_witness :
    (check_print_weight defaultConfig envShortBy3 ⟨none, none⟩ "f").1 = .ok false
      ∧ (∃ p q, (check_print_weight defaultConfig envShortBy3 ⟨none, none⟩ "f").2.2
          = [(p ++ fmt1 ((80 : ℚ) + defaultConfig.weight_margin - 82) ++ q, "error")])
      ∧ fmt1 ((80 : ℚ) + defaultConfig.weight_margin - 82) = "3.0"
      ∧ (mmu_weight_check defaultConfig envShortBy3 ⟨some spoolShortBy3, none⟩ 3 0 [0] []
          (some 80)).1 = .ok false := by
  have h := c1_weight_rule defaultConfig envShortBy3 ⟨none, none⟩ ⟨some spoolShortBy3, none⟩
    "f" 3 3 spoolShortBy3 spoolShortBy3 ⟨some 80, none, none, none⟩ 80 82 0 [0] [] 80 82
    rfl rfl rfl rfl rfl rfl rfl rfl rfl rfl
  refine ⟨?_, ?_, by with_unfolding_all decide, ?_⟩
  · rw [h.1.1]
    with_unfolding_all decide
  · exact h.1.2 (by with_unfolding_all decide)
  · rw [h.2.1]
    with_unfolding_all decide

/-- C9 counterexample: a single-spool session, material check enabled at
`error` severity, spool material PETG against metadata PLA.  If the
material evaluator ran it would fail the session; instead the session
passes and the console shows only the header and the pass notice — the
material rule is never evaluated in single-spool mode. -/
theorem c9_material_not_run_counterexample :
    (run_checks configMaterialError envSingleMaterialMismatch ⟨none, none⟩).1 = .passed
      ∧ (run_checks configMaterialError envSingleMaterialMismatch ⟨none, none⟩).2.2
          = [("Running Single-spool checks for: f", "info"),
             ("✓ All pre-print checks PASSED", "info")] := by
  with_unfolding_all decide

/-- The single-spool weight check reads none of the material-check
configuration. -/
theorem check_print_weight_material_config_irrelevant (wm : ℚ) (ew em en : Bool)
    (ms ns : String) (b : Bool) (sev : String) (env : Env) (st : PluginState) (f : String) :
    check_print_weight ⟨wm, ew, b, en, sev, ns⟩ env st f
      = check_print_weight ⟨wm, ew, em, en, ms, ns⟩ env st f := rfl

/-- The single-spool name check reads none of the material-check
configuration. -/
theorem check_filament_name_material_config_irrelevant (wm : ℚ) (ew em en : Bool)
    (ms ns : String) (b : Bool) (sev : String) (env : Env) (st : PluginState) (f : String) :
    check_filament_name_compliance ⟨wm, ew, b, en, sev, ns⟩ env st f
      = check_filament_name_compliance ⟨wm, ew, em, en, ms, ns⟩ env st f := rfl

/-- The single-spool evaluation phase reads none of the material-check
configuration. -/
theorem run_checks_eval_material_config_irrelevant (wm : ℚ) (ew em en : Bool)
    (ms ns : String) (b : Bool) (sev : String) (env : Env) (st : PluginState) (f : String) :
    run_checks_eval ⟨wm, ew, b, en, sev, ns⟩ env st f false
      = run_checks_eval ⟨wm, ew, em, en, ms, ns⟩ env st f false := rfl

/-- C9 amended: a single-spool session runs only the weight and name
evaluators; the material evaluator exists only in the MMU path, so in a
session where the MMU backend is absent or disabled the whole session
result is unchanged by `enable_material_check` and
`material_mismatch_severity`. -/
theorem c9_material_only_in_mmu_mode (cfg : CheckConfig) (b : Bool) (sev : String)
    (env : Env) (st : PluginState)
    (h : (env.mmu_server && env.mmu_backend_enabled) = false) :
    run_checks { cfg with enable_material_check := b, material_mismatch_severity := sev } env st
      = run_checks cfg env st := by
  obtain ⟨wm, ew, em, en, ms, ns⟩ := cfg
  unfold run_checks
  cases hsp : env.spoolman
  · rfl
  · cases hfn : env.current_filename with
    | none => rfl
    | some f =>
      simp only [h]
      rw [run_checks_eval_material_config_irrelevant wm ew em en ms ns b sev env
        (clear_spool_cache st) f]

/-- C9 witness for the amended statement: turning the material check on
at `error` severity changes nothing about the mismatching single-spool
session of the counterexample. -/
theorem c9_material_only_in_mmu_mode_witness :
    run_checks { defaultConfig with
        enable_material_check := true
        material_mismatch_severity := "error" } envSingleMaterialMismatch ⟨none, none⟩
      = run_checks defaultConfig envSingleMaterialMismatch ⟨none, none⟩ :=
  c9_material_only_in_mmu_mode defaultConfig true "error" envSingleMaterialMismatch
    ⟨none, none⟩ rfl

/-- With an empty cache and either no active spool or a failing fetch,
the single-spool weight check passes and leaves the cache id empty. -/
theorem check_print_weight_fail_open (cfg : CheckConfig) (env : Env) (st : PluginState)
    (f : String) (hc : st.cached_spool_id = none)
    (ha : env.active_spool_id = none
          ∨ ∃ sid, env.active_spool_id = some sid ∧ env.spools sid = none) :
    (check_print_weight cfg env st f).1 = .ok true
      ∧ (check_print_weight cfg env st f).2.1.cached_spool_id = none := by
  unfold check_print_weight
  by_cases hcond : (!env.spoolman || !cfg.enable_weight_check) = true
  · simp [hcond, hc]
  · rcases ha with ha | ⟨sid, ha, hf⟩
    · rw [if_neg hcond, init_spool_inactive env st ha]
      simp [hc]
    · have hsp : env.spoolman = true := by
        by_contra hn
        apply hcond
        simp only [Bool.not_eq_true] at hn
        simp [hn]
      rw [if_neg hcond, init_spool_fetch_fail env st sid hsp hc ha hf]
      simp
/-- With an empty cache and either no active spool or a failing fetch,
the single-spool name check passes. -/
theorem check_filament_name_fail_open (cfg : CheckConfig) (env : Env) (st : PluginState)
    (f : String) (hc : st.cached_spool_id = none)
    (ha : env.active_spool_id = none
          ∨ ∃ sid, env.active_spool_id = some sid ∧ env.spools sid = none) :
    (check_filament_name_compliance cfg env st f).1 = .ok true := by
  unfold check_filament_name_compliance
  by_cases hcond : (!env.spoolman || !cfg.enable_filament_name_check
      || (cfg.filament_name_mismatch_severity == "ignore")) = true
  · simp [hcond]
  · rcases ha with ha | ⟨sid, ha, hf⟩
    · rw [if_neg hcond, init_spool_inactive env st ha]
    · have hsp : env.spoolman = true := by
        by_contra hn
        apply hcond
        simp only [Bool.not_eq_true] at hn
        simp [hn]
      rw [if_neg hcond, init_spool_fetch_fail env st sid hsp hc ha hf]

/-- C10: every single-spool session with no active spool id, or whose
active record cannot be fetched, passes both the weight and the name
check and ends with an overall pass — the print is never paused
(single-spool mode fails open on missing spool data and fetch failures). -/
theorem c10_single_spool_fails_open (cfg : CheckConfig) (env : Env) (st : PluginState)
    (f : String)
    (hs : env.spoolman = true) (hf : env.current_filename = some f)
    (hm : (env.mmu_server && env.mmu_backend_enabled) = false)
    (ha : env.active_spool_id = none
          ∨ ∃ sid, env.active_spool_id = some sid ∧ env.spools sid = none) :
    (run_checks cfg env st).1 = .passed := by
  have h1 := check_print_weight_fail_open cfg env (clear_spool_cache st) f
    (by simp [clear_spool_cache]) ha
  rcases hres : check_print_weight cfg env (clear_spool_cache st) f with ⟨r1, s1, m1⟩
  rw [hres] at h1
  obtain ⟨hr1, hs1⟩ := h1
  simp only at hr1 hs1
  subst hr1
  have h2 := check_filament_name_fail_open cfg env s1 f hs1 ha
  rcases hres2 : check_filament_name_compliance cfg env s1 f with ⟨r2, s2, m2⟩
  rw [hres2] at h2
  simp only at h2
  subst h2
  unfold run_checks
  simp only [hs, hf, hm, Bool.not_true, Bool.false_eq_true, if_false]
  unfold run_checks_eval
  simp only [Bool.false_eq_true, if_false]
  rw [hres]
  dsimp only
  rw [hres2]
  simp

/-- C10 witness: a session with no active spool id (starting from a
dirty cache), and a session whose active spool 3 cannot be fetched. -/
theorem c10_single_spool_fails_open_witness :
    (run_checks defaultConfig envNoActive ⟨some spoolShortBy3, some 9⟩).1 = .passed
      ∧ (run_checks defaultConfig envFetchFailSingle ⟨none, none⟩).1 = .passed :=
  ⟨c10_single_spool_fails_open defaultConfig envNoActive ⟨some spoolShortBy3, some 9⟩ "f"
      rfl rfl rfl (Or.inl rfl),
    c10_single_spool_fails_open defaultConfig envFetchFailSingle ⟨none, none⟩ "f"
      rfl rfl rfl (Or.inr ⟨3, rfl, rfl⟩)⟩
